import Mathlib

/-!
Shallow embedding of the multi-platform message relay server (src/server.js):
a WhatsApp/Instagram webhook relay that normalizes inbound events into a
canonical message model, keeps per-contact ordered histories in in-memory
maps, broadcasts deltas to WebSocket observers, and performs
optimistic-send-then-reconcile for outbound messages.

Modelling conventions:
- JavaScript `Map` objects (`contacts`, `messages`, `clients`) are modelled
  as association lists with `Map.set` insertion-order semantics.
- Unguarded JavaScript property accesses on possibly-`undefined` values are
  modelled as `Except.error` (a thrown `TypeError`); `try/catch` blocks are
  modelled by matching on the `Except`.  In the source, every reachable
  throw inside `handleIncomingMessage` happens before the first store
  mutation, so the catch-restores-initial-state model is faithful.
- Timestamps are epoch milliseconds as `Nat`; the JS
  `new Date(parseInt(s) * 1000)` conversion is modelled as `* 1000` on the
  platform-provided epoch-seconds value.
- `Date.now()` is passed in as an explicit `now : Nat` parameter.
- Outbound HTTP calls are modelled at the boundary: the request the code
  builds is returned as data, and the platform's response is an input
  (`SendResult`).
-/

/-- The `direction` field of a stored message. -/
inductive Direction where
  | incoming
  | outgoing
deriving DecidableEq, Repr

/-- The `status` field of a stored message. -/
inductive Status where
  | sending
  | sent
  | delivered
  | received
deriving DecidableEq, Repr

/-- Canonical message record (the `msgData` / `tempMsg` shape in server.js). -/
structure Message where
  id : String
  contactId : String
  text : String
  direction : Direction
  timestamp : Nat
  status : Status
deriving DecidableEq, Repr

/-- Contact record stored in the `contacts` map. -/
structure Contact where
  id : String
  name : String
  lastMessage : String
  lastMessageTime : Nat
deriving DecidableEq, Repr

/-- Models `Map.get`: first binding for the key, if any. -/
def mapGet {α : Type} (m : List (String × α)) (k : String) : Option α :=
  match m with
  | [] => none
  | (k', v) :: rest => if k' = k then some v else mapGet rest k

/-- Models `Map.set`: replace the binding in place if the key exists (JS `Map.set`
keeps insertion order for existing keys), else append a new binding. -/
def mapSet {α : Type} (m : List (String × α)) (k : String) (v : α) : List (String × α) :=
  match m with
  | [] => [(k, v)]
  | (k', v') :: rest => if k' = k then (k, v) :: rest else (k', v') :: mapSet rest k v

/-- Models `Map.has`. -/
def mapHas {α : Type} (m : List (String × α)) (k : String) : Bool :=
  (mapGet m k).isSome

/-- The in-memory storage: `messages` (contactId → message array) and
`contacts` (contactId → contact info) maps of server.js. -/
structure Store where
  contacts : List (String × Contact)
  messages : List (String × List Message)
deriving DecidableEq, Repr

/-- The empty storage at process start. -/
def Store.empty : Store := { contacts := [], messages := [] }

/-- Models `GET /api/messages/:contactId`: `messages.get(contactId) || []`. -/
def getHistory (st : Store) (contactId : String) : List Message :=
  (mapGet st.messages contactId).getD []

/-- Events on the observer push channel (the JSON shapes passed to
`broadcast` and `ws.send`). -/
inductive WireEvent where
  | message (msg : Message) (contact : Option Contact)
  | contactsList (cs : List Contact)
  | errorEv (text : String)
deriving DecidableEq, Repr

/-- Observable effects of a handler run: a broadcast to all clients, a
directed send to one client, or a fire-and-forget read-receipt HTTP call. -/
inductive Effect where
  | broadcastE (ev : WireEvent)
  | sendTo (clientId : String) (ev : WireEvent)
  | readReceipt (messageId : String)
deriving DecidableEq, Repr

/-! ## Inbound payload shapes

Optional fields model JSON properties that may be absent; accessing a
property of an absent (`undefined`) object is a thrown `TypeError`. -/

/-- WhatsApp `messages[0].text` object. -/
structure WAText where
  body : String
deriving DecidableEq, Repr

/-- WhatsApp inbound message object (`value.messages[0]`).  The media
fields are presence flags for the corresponding JSON objects. -/
structure WAMessage where
  id : String
  timestamp : Nat
  text : Option WAText
  image : Bool
  video : Bool
  audio : Bool
  document : Bool
deriving DecidableEq, Repr

/-- WhatsApp sender profile (`contacts[0].profile`). -/
structure WAProfile where
  name : String
deriving DecidableEq, Repr

/-- WhatsApp contact object (`value.contacts[0]`). -/
structure WAContact where
  wa_id : String
  profile : Option WAProfile
deriving DecidableEq, Repr

/-- WhatsApp `change.value` object. -/
structure WAValue where
  messages : Option (List WAMessage)
  contacts : Option (List WAContact)
deriving DecidableEq, Repr

/-- Instagram messaging-event `message` object. -/
structure IGMessage where
  mid : Option String
  text : Option String
deriving DecidableEq, Repr

/-- Instagram messaging-event `sender` object. -/
structure IGSender where
  id : String
deriving DecidableEq, Repr

/-- One Instagram messaging event (`entry.messaging[i]`). -/
structure IGValue where
  sender : Option IGSender
  timestamp : Nat
  message : Option IGMessage
deriving DecidableEq, Repr

/-- Models `getMessageText(message)` from server.js: structured text body first,
then fixed media placeholders in source order, then the generic fallback. -/
def getMessageText (message : WAMessage) : String :=
  match message.text with
  | some t => t.body
  | none =>
    if message.image then "[Image]"
    else if message.video then "[Video]"
    else if message.audio then "[Audio]"
    else if message.document then "[Document]"
    else "[Media message]"

/-- Models the JS `||` operator with an optional string left operand: the
fallback is taken when the operand is absent (`undefined`) or is the empty
string, which is falsy in JS — not only when it is nullish. -/
def jsOrString (s : Option String) (fallback : String) : String :=
  match s with
  | none => fallback
  | some str => if str = "" then fallback else str

/-- The Instagram branch of `handleIncomingMessage`, before the enclosing
`try/catch`.  An `Except.error` models a thrown `TypeError`: reading
`value.sender.id` with no `sender`, or `value.message.mid` with no
`message` (the `text` extraction on line 129 uses optional chaining and so
tolerates a missing `message`, but line 132 does not).  The `|| fallback`
coalescing on lines 129 and 132 is falsy, not nullish: a present-but-empty
string also takes the fallback (`jsOrString`).  All throws happen
before any store mutation. -/
def handleInstagramE (st : Store) (now : Nat) (v : IGValue) :
    Except String (Store × List Effect) :=
  match v.sender with
  | none => .error "Cannot read properties of undefined (reading id)"
  | some sender =>
    let senderId := sender.id
    let timestamp := v.timestamp * 1000
    let text := jsOrString (v.message.bind IGMessage.text) "[Message Instagram non textuel]"
    match v.message with
    | none => .error "Cannot read properties of undefined (reading mid)"
    | some m =>
      let mid := jsOrString m.mid ("insta-" ++ toString now)
      let msgData : Message :=
        { id := mid, contactId := senderId, text := text,
          direction := .incoming, timestamp := timestamp, status := .received }
      let contacts1 :=
        if mapHas st.contacts senderId then st.contacts
        else mapSet st.contacts senderId
          { id := senderId, name := "Instagram User " ++ senderId,
            lastMessage := text, lastMessageTime := timestamp }
      let messages1 :=
        if mapHas st.messages senderId then st.messages
        else mapSet st.messages senderId []
      let messages2 :=
        mapSet messages1 senderId (((mapGet messages1 senderId).getD []) ++ [msgData])
      .ok ({ contacts := contacts1, messages := messages2 },
           [Effect.broadcastE (WireEvent.message msgData (mapGet contacts1 senderId))])

/-- The Instagram branch of `handleIncomingMessage` with its `try/catch`:
an error is logged and the event dropped, leaving the store unchanged and
producing no effects.  Note: this branch never updates `lastMessage` /
`lastMessageTime` of an existing contact, and never issues a read receipt
(it returns before the `markMessageAsRead` call). -/
def handleIncomingInstagram (st : Store) (now : Nat) (v : IGValue) : Store × List Effect :=
  match handleInstagramE st now v with
  | .ok r => r
  | .error _ => (st, [])

/-- The WhatsApp branch of `handleIncomingMessage`, before the enclosing
`try/catch`.  Throw points, in source order: `value.messages[0]` with the
`messages` field absent; `value.contacts[0]` with `contacts` absent;
`contact.wa_id` with an empty `contacts` array; `message.id` with an empty
`messages` array; `contact.profile.name` with `profile` absent (only
reached when the contact is being created).  All reachable throws happen
before any store mutation. -/
def handleWhatsAppE (st : Store) (v : WAValue) :
    Except String (Store × List Effect) :=
  match v.messages with
  | none => .error "Cannot read properties of undefined (reading 0)"
  | some msgs =>
    match v.contacts with
    | none => .error "Cannot read properties of undefined (reading 0)"
    | some cts =>
      match cts.head? with
      | none => .error "Cannot read properties of undefined (reading wa_id)"
      | some c =>
        match msgs.head? with
        | none => .error "Cannot read properties of undefined (reading id)"
        | some msg =>
          let contactId := c.wa_id
          let msgData : Message :=
            { id := msg.id, contactId := contactId, text := getMessageText msg,
              direction := .incoming, timestamp := msg.timestamp * 1000,
              status := .delivered }
          let step : Except String (List (String × Contact)) :=
            if mapHas st.contacts contactId then .ok st.contacts
            else
              match c.profile with
              | none => .error "Cannot read properties of undefined (reading name)"
              | some p => .ok (mapSet st.contacts contactId
                  { id := contactId, name := p.name,
                    lastMessage := msgData.text, lastMessageTime := msgData.timestamp })
          match step with
          | .error e => .error e
          | .ok contacts1 =>
            let messages1 :=
              if mapHas st.messages contactId then st.messages
              else mapSet st.messages contactId []
            let messages2 :=
              mapSet messages1 contactId (((mapGet messages1 contactId).getD []) ++ [msgData])
            match mapGet contacts1 contactId with
            | none => .error "Cannot set properties of undefined (setting lastMessage)"
            | some ci =>
              let ci' :=
                { ci with lastMessage := msgData.text, lastMessageTime := msgData.timestamp }
              let contacts2 := mapSet contacts1 contactId ci'
              .ok ({ contacts := contacts2, messages := messages2 },
                   [Effect.broadcastE (WireEvent.message msgData (some ci')),
                    Effect.readReceipt msg.id])

/-- The WhatsApp branch of `handleIncomingMessage` with its `try/catch`:
failure leaves the store unchanged with no effects (no broadcast, no read
receipt). -/
def handleIncomingWhatsApp (st : Store) (v : WAValue) : Store × List Effect :=
  match handleWhatsAppE st v with
  | .ok r => r
  | .error _ => (st, [])

/-! ## Webhook endpoint (`POST /webhook`) -/

/-- One element of `entry.changes` in a WhatsApp webhook body. -/
structure WAChange where
  field : String
  value : WAValue
deriving DecidableEq, Repr

/-- One element of `body.entry`.  Instagram bodies carry `messaging`,
WhatsApp bodies carry `changes`; either may be absent. -/
structure WebhookEntry where
  messaging : Option (List IGValue)
  changes : Option (List WAChange)
deriving DecidableEq, Repr

/-- A raw webhook body: the top-level `object` discriminator plus `entry`. -/
structure WebhookBody where
  object : Option String
  entry : Option (List WebhookEntry)
deriving DecidableEq, Repr

/-- Platform classification of a raw webhook body by its top-level
`object` discriminator — the condition chain of `app.post('/webhook')`
(`body.object === 'instagram'` / `body.object === 'whatsapp_business_account'`);
the fall-through case is the "unrecognized" tag of the spec. -/
def identify (b : WebhookBody) : String :=
  if b.object = some "instagram" then "instagram"
  else if b.object = some "whatsapp_business_account" then "whatsapp"
  else "unrecognized"

/-- Models `entry.messaging.forEach` for one Instagram entry: guarded by
`if (entry.messaging)`, so an absent `messaging` is skipped, not a throw. -/
def processIGEntries (now : Nat) (st : Store) (acc : List Effect) :
    List WebhookEntry → Store × List Effect
  | [] => (st, acc)
  | e :: rest =>
    match e.messaging with
    | none => processIGEntries now st acc rest
    | some vs =>
      let r := vs.foldl
        (fun (p : Store × List Effect) v =>
          let h := handleIncomingInstagram p.1 now v
          (h.1, p.2 ++ h.2)) (st, acc)
      processIGEntries now r.1 r.2 rest

/-- Models `entry.changes.forEach` for one WhatsApp entry: only changes with
`field === 'messages'` are handled. -/
def processWAChanges (st : Store) (acc : List Effect) :
    List WAChange → Store × List Effect
  | [] => (st, acc)
  | c :: rest =>
    if c.field = "messages" then
      let h := handleIncomingWhatsApp st c.value
      processWAChanges h.1 (acc ++ h.2) rest
    else processWAChanges st acc rest

/-- Models `body.entry.forEach` for a WhatsApp body.  `entry.changes.forEach` is
unguarded, so an entry without `changes` throws out of the loop (the
`Bool` result is `false`); mutations and broadcasts already performed by
earlier entries persist. -/
def processWAEntries (st : Store) (acc : List Effect) :
    List WebhookEntry → Store × List Effect × Bool
  | [] => (st, acc, true)
  | e :: rest =>
    match e.changes with
    | none => (st, acc, false)
    | some cs =>
      let r := processWAChanges st acc cs
      processWAEntries r.1 r.2 rest

/-- Models `app.post('/webhook')`: classify by `body.object`, set the global
`typeMessage` flag as a side effect, dispatch every embedded event to
`handleIncomingMessage`, and answer HTTP 200 (`EVENT_RECEIVED`) — or 500 if
an error escapes to the route's own `try/catch` (a missing `entry` array,
or a WhatsApp entry missing `changes`).  Returns
(new typeMessage, new store, emitted effects, HTTP status). -/
def webhookPost (typeMessage : String) (st : Store) (now : Nat) (b : WebhookBody) :
    String × Store × List Effect × Nat :=
  if b.object = some "instagram" then
    match b.entry with
    | none => ("instagram", st, [], 500)
    | some es =>
      let r := processIGEntries now st [] es
      ("instagram", r.1, r.2, 200)
  else if b.object = some "whatsapp_business_account" then
    match b.entry with
    | none => ("whatsapp", st, [], 500)
    | some es =>
      let r := processWAEntries st [] es
      ("whatsapp", r.1, r.2.1, if r.2.2 then 200 else 500)
  else (typeMessage, st, [], 200)

/-! ## WebSocket clients and broadcast -/

/-- Models `WebSocket.OPEN` readyState constant. -/
def WSOPEN : Nat := 1

/-- One entry of the `clients` map: client id and connection readyState. -/
structure WSClient where
  clientId : String
  readyState : Nat
deriving DecidableEq, Repr

/-- Models `ws.on('close')`: `clients.delete(clientId)`. -/
def onClose (cs : List WSClient) (clientId : String) : List WSClient :=
  cs.filter (fun c => c.clientId ≠ clientId)

/-- JSON serialization of a `Direction` value. -/
def serializeDirection : Direction → String
  | .incoming => "incoming"
  | .outgoing => "outgoing"

/-- JSON serialization of a `Status` value. -/
def serializeStatus : Status → String
  | .sending => "sending"
  | .sent => "sent"
  | .delivered => "delivered"
  | .received => "received"

/-- Wrap a string in JSON quotes. -/
def jsonQuote (s : String) : String := "\"" ++ s ++ "\""

/-- Models `JSON.stringify` of a stored message. -/
def serializeMessage (m : Message) : String :=
  "\x7b\"id\":" ++ jsonQuote m.id ++ ",\"contactId\":" ++ jsonQuote m.contactId ++
    ",\"text\":" ++ jsonQuote m.text ++ ",\"direction\":" ++
    jsonQuote (serializeDirection m.direction) ++ ",\"timestamp\":" ++
    toString m.timestamp ++ ",\"status\":" ++ jsonQuote (serializeStatus m.status) ++ "\x7d"

/-- Models `JSON.stringify` of a contact record. -/
def serializeContact (c : Contact) : String :=
  "\x7b\"id\":" ++ jsonQuote c.id ++ ",\"name\":" ++ jsonQuote c.name ++
    ",\"lastMessage\":" ++ jsonQuote c.lastMessage ++ ",\"lastMessageTime\":" ++
    toString c.lastMessageTime ++ "\x7d"

/-- Models `JSON.stringify` of a push-channel event (an absent `contact` field is
omitted, as `JSON.stringify` drops `undefined` properties). -/
def serializeEvent : WireEvent → String
  | .message m contact =>
    "\x7b\"type\":\"message\",\"message\":" ++ serializeMessage m ++
      (match contact with
       | some c => ",\"contact\":" ++ serializeContact c
       | none => "") ++ "\x7d"
  | .contactsList cs =>
    "\x7b\"type\":\"contacts\",\"contacts\":[" ++
      String.intercalate "," (cs.map serializeContact) ++ "]\x7d"
  | .errorEv t => "\x7b\"type\":\"error\",\"message\":" ++ jsonQuote t ++ "\x7d"

/-- Models `broadcast(data)`: serialize once (`const message = JSON.stringify(data)`),
then send that same string to every client whose `readyState` is `OPEN`,
in map iteration order.  Returns the (clientId, sent string) pairs.  A
client that is in the map but not open is skipped; `ws.send` on an open
socket reports failures asynchronously, so one client's failure cannot
abort the loop. -/
def broadcast (cs : List WSClient) (data : WireEvent) : List (String × String) :=
  let message := serializeEvent data
  cs.foldr (fun c acc => if c.readyState = WSOPEN then (c.clientId, message) :: acc else acc) []

/-! ## Outbound send path -/

/-- Environment-supplied configuration values (`config` /
`configInstagrame` in server.js). -/
structure EnvConfig where
  whatsappAccessToken : String
  phoneNumberId : String
  instagramAccessToken : String
  igBusinessId : String
deriving DecidableEq, Repr

/-- Models `config.apiVersion` ('v22.0'). -/
def configApiVersion : String := "v22.0"

/-- Models `configInstagrame.apiVersion` ('v23.0'). -/
def configInstagrameApiVersion : String := "v23.0"

/-- The `urlWhatsapp` constant. -/
def urlWhatsapp (cfg : EnvConfig) : String :=
  "https://graph.facebook.com/" ++ configApiVersion ++ "/" ++ cfg.phoneNumberId ++ "/messages"

/-- The `URLInsta` constant. -/
def URLInsta (cfg : EnvConfig) : String :=
  "https://graph.facebook.com/" ++ configInstagrameApiVersion ++ "/" ++ cfg.igBusinessId ++ "/messages"

/-- The `accessTokenConfigWhatsapp` constant. -/
def accessTokenConfigWhatsapp (cfg : EnvConfig) : String :=
  "Bearer " ++ cfg.whatsappAccessToken

/-- The `accessTokenConfigInstagram` constant. -/
def accessTokenConfigInstagram (cfg : EnvConfig) : String :=
  "Bearer " ++ cfg.instagramAccessToken

/-- The outbound HTTP request `sendWhatsAppMessage` builds: URL,
Authorization header value, and the JSON payload fields. -/
structure SendRequest where
  url : String
  authToken : String
  messaging_product : String
  toId : String
  msgType : String
  textBody : String
  recipient_type : Option String
deriving DecidableEq, Repr

/-- Models `sendWhatsAppMessage(contactId, text)`: chooses URL, token and
`messaging_product` by the current `typeMessage` flag; WhatsApp payloads
additionally carry `recipient_type: 'individual'`. -/
def sendWhatsAppMessage (cfg : EnvConfig) (typeMessage : String)
    (contactId text : String) : SendRequest :=
  { url := if typeMessage = "instagram" then URLInsta cfg else urlWhatsapp cfg,
    authToken := if typeMessage = "instagram" then accessTokenConfigInstagram cfg
                 else accessTokenConfigWhatsapp cfg,
    messaging_product := if typeMessage = "instagram" then "instagram" else "whatsapp",
    toId := contactId,
    msgType := "text",
    textBody := text,
    recipient_type := if typeMessage = "whatsapp" then some "individual" else none }

/-- The read-receipt HTTP request `markMessageAsRead` builds. -/
structure ReadReceiptRequest where
  url : String
  authToken : String
  messaging_product : String
  status : String
  message_id : String
deriving DecidableEq, Repr

/-- Models `markMessageAsRead(messageId)`: URL and Authorization switch on the
`typeMessage` flag, but the payload's `messaging_product` is the literal
'whatsapp' in both cases. -/
def markMessageAsRead (cfg : EnvConfig) (typeMessage : String)
    (messageId : String) : ReadReceiptRequest :=
  { url := if typeMessage = "instagram" then URLInsta cfg else urlWhatsapp cfg,
    authToken := if typeMessage = "instagram" then accessTokenConfigInstagram cfg
                 else accessTokenConfigWhatsapp cfg,
    messaging_product := "whatsapp",
    status := "read",
    message_id := messageId }

/-- Outcome of the awaited platform send call: `ok confirmedId` when the
HTTP call succeeded and `response.messages[0].id` was read, `fail` when
the call (or reading the response) threw. -/
inductive SendResult where
  | ok (confirmedId : String)
  | fail (err : String)
deriving DecidableEq, Repr

/-- Models `findIndex(m => m.id === oldId)` followed by in-place assignment of
`newMsg` at that index; if no match (`msgIndex === -1`) the list is
unchanged. -/
def replaceById : List Message → String → Message → List Message
  | [], _, _ => []
  | m :: rest, oldId, newMsg =>
    if m.id = oldId then newMsg :: rest
    else m :: replaceById rest oldId newMsg

/-- Models `handleClientMessage(data, clientId)`: optimistic insert of a
provisional `temp-` message with `status:'sending'`, immediate broadcast,
then the awaited platform call (its outcome is the `result` input).  On
success the provisional message is replaced in place by a copy with the
platform-confirmed id and `status:'sent'`, and the replacement is
broadcast.  On failure the store is not mutated further and an `error`
event is sent only to the originating client, if it is still in the
`clients` map. -/
def handleClientMessage (st : Store) (cs : List WSClient) (clientId : String)
    (now : Nat) (contactId text : String) (result : SendResult) :
    Store × List Effect :=
  let tempMsg : Message :=
    { id := "temp-" ++ toString now, contactId := contactId, text := text,
      direction := .outgoing, timestamp := now, status := .sending }
  let messages1 :=
    if mapHas st.messages contactId then st.messages
    else mapSet st.messages contactId []
  let messages2 :=
    mapSet messages1 contactId (((mapGet messages1 contactId).getD []) ++ [tempMsg])
  let st1 : Store := { st with messages := messages2 }
  let effs1 := [Effect.broadcastE (WireEvent.message tempMsg none)]
  match result with
  | .ok confirmedId =>
    let realMsg : Message := { tempMsg with id := confirmedId, status := .sent }
    let contactMessages := (mapGet st1.messages contactId).getD []
    let newList := replaceById contactMessages tempMsg.id realMsg
    let st2 : Store := { st1 with messages := mapSet st1.messages contactId newList }
    (st2, effs1 ++ [Effect.broadcastE (WireEvent.message realMsg none)])
  | .fail _ =>
    let errEffs :=
      match cs.find? (fun c => c.clientId = clientId) with
      | some _ => [Effect.sendTo clientId (WireEvent.errorEv "Failed to send message")]
      | none => []
    (st1, effs1 ++ errEffs)

/-! ## Concrete payloads used by witnesses and counterexamples -/

/-- First of two consecutive Instagram inbound events from the same sender. -/
def c2v1 : IGValue :=
  { sender := some { id := "u1" }, timestamp := 100,
    message := some { mid := some "m1", text := some "first" } }

/-- Second Instagram inbound event from the same sender. -/
def c2v2 : IGValue :=
  { sender := some { id := "u1" }, timestamp := 200,
    message := some { mid := some "m2", text := some "second" } }

/-- The store after processing `c2v1` then `c2v2` from the empty store. -/
def c2finalStore : Store :=
  (handleIncomingInstagram (handleIncomingInstagram Store.empty 0 c2v1).1 0 c2v2).1

/-- The contact record created by the first Instagram message `c2v1`. -/
def c2contact : Contact :=
  { id := "u1", name := "Instagram User u1", lastMessage := "first", lastMessageTime := 100000 }

/-- A store that already knows contact "u1" (as after processing `c2v1`). -/
def c2knownStore : Store := { contacts := [("u1", c2contact)], messages := [] }

/-- A `messages` change whose value is missing both `messages` and
`contacts` arrays, so adapter extraction fails. -/
def c5waChange : WAChange :=
  { field := "messages", value := { messages := none, contacts := none } }

/-- A webhook entry wrapping `c5waChange`. -/
def c5waEntry : WebhookEntry := { messaging := none, changes := some [c5waChange] }

/-- A structurally well-formed WhatsApp webhook body whose embedded value
is malformed. -/
def c5waBody : WebhookBody :=
  { object := some "whatsapp_business_account", entry := some [c5waEntry] }

/-- A concrete environment configuration with distinct platform tokens. -/
def cfgDemo : EnvConfig :=
  { whatsappAccessToken := "watok", phoneNumberId := "12345",
    instagramAccessToken := "igtok", igBusinessId := "67890" }

/-! ## Store lemmas -/

/-- Reading back the key just written with `mapSet`. -/
theorem mapGet_mapSet_self {α : Type} (m : List (String × α)) (k : String) (v : α) :
    mapGet (mapSet m k v) k = some v := by
  induction m with
  | nil => simp [mapSet, mapGet]
  | cons p rest ih =>
    obtain ⟨k', v'⟩ := p
    by_cases h : k' = k
    · simp [mapSet, mapGet, h]
    · simp [mapSet, mapGet, h, ih]

/-- The `if (!map.has(k)) map.set(k, d)` idiom: afterwards the key is
bound, to its old value or the default. -/
theorem mapGet_ensure {α : Type} (m : List (String × α)) (k : String) (d : α) :
    mapGet (if mapHas m k then m else mapSet m k d) k = some ((mapGet m k).getD d) := by
  by_cases h : mapHas m k
  · cases hg : mapGet m k with
    | none => simp [mapHas, hg] at h
    | some v => simp [h, hg]
  · cases hg : mapGet m k with
    | none => simp [h, mapGet_mapSet_self, hg]
    | some v => simp [mapHas, hg] at h

/-- The `findIndex`-and-assign step on a list ending in the sought message: when no
earlier message carries the provisional id, exactly the final element is
replaced and every other position is untouched. -/
theorem replaceById_append_fresh (l : List Message) (t r : Message)
    (h : ∀ m ∈ l, m.id ≠ t.id) :
    replaceById (l ++ [t]) t.id r = l ++ [r] := by
  induction l with
  | nil => simp [replaceById]
  | cons x xs ih =>
    have hx : x.id ≠ t.id := h x (by simp)
    simp [replaceById, hx, ih (fun m hm => h m (by simp [hm]))]

/-! ## Claim theorems -/

/-- C6: WhatsApp text extraction prefers the structured text body; with no
text, a message carrying an image / video / audio / document field (in the
source's checking order) maps to the corresponding fixed placeholder, and
any other non-text message maps to the generic media placeholder — the
extraction is total, so the message is never dropped for lacking text. -/
theorem c6_whatsapp_text_extraction (m : WAMessage) :
    (∀ t, m.text = some t → getMessageText m = t.body) ∧
    (m.text = none → m.image = true → getMessageText m = "[Image]") ∧
    (m.text = none → m.image = false → m.video = true → getMessageText m = "[Video]") ∧
    (m.text = none → m.image = false → m.video = false → m.audio = true →
      getMessageText m = "[Audio]") ∧
    (m.text = none → m.image = false → m.video = false → m.audio = false →
      m.document = true → getMessageText m = "[Document]") ∧
    (m.text = none → m.image = false → m.video = false → m.audio = false →
      m.document = false → getMessageText m = "[Media message]") := by
  refine ⟨?_, ?_, ?_, ?_, ?_, ?_⟩ <;> intros <;> simp_all [getMessageText]

/-- Witness for C6: an inbound payload with an `image` field and no text
extracts to "[Image]". -/
theorem c6_whatsapp_text_extraction_witness :
    getMessageText
      { id := "m1", timestamp := 5, text := none, image := true,
        video := false, audio := false, document := false } = "[Image]" :=
  (c6_whatsapp_text_extraction _).2.1 rfl rfl

/-- C10: every read-receipt request carries `messaging_product: 'whatsapp'`
in its payload regardless of the current platform context, even though in
the Instagram context the endpoint URL and Authorization header have
switched to the Instagram ones. -/
theorem c10_read_receipt_product_always_whatsapp (cfg : EnvConfig) (tm messageId : String) :
    (markMessageAsRead cfg tm messageId).messaging_product = "whatsapp" ∧
    (markMessageAsRead cfg "instagram" messageId).url = URLInsta cfg ∧
    (markMessageAsRead cfg "instagram" messageId).authToken = accessTokenConfigInstagram cfg ∧
    (markMessageAsRead cfg "instagram" messageId).messaging_product = "whatsapp" := by
  refine ⟨rfl, ?_, ?_, rfl⟩ <;> simp [markMessageAsRead]

/-- C9: an Instagram messaging event with a `sender` but no `message`
object fails at the unguarded `value.message.mid` access; the catch drops
the event, so the store is unchanged (no contact created, no message
stored) and no broadcast is made — even though the text-extraction
expression alone would have produced the non-textual fallback. -/
theorem c9_instagram_missing_message_dropped (st : Store) (now : Nat) (v : IGValue)
    (s : IGSender) (hs : v.sender = some s) (hm : v.message = none) :
    handleInstagramE st now v = .error "Cannot read properties of undefined (reading mid)" ∧
    handleIncomingInstagram st now v = (st, []) ∧
    jsOrString (v.message.bind IGMessage.text) "[Message Instagram non textuel]" =
      "[Message Instagram non textuel]" := by
  refine ⟨?_, ?_, ?_⟩
  · simp [handleInstagramE, hs, hm]
  · simp [handleIncomingInstagram, handleInstagramE, hs, hm]
  · simp [hm, jsOrString]

/-- Witness for C9: a concrete Instagram event with no `message` object is
dropped with the store unchanged. -/
theorem c9_instagram_missing_message_dropped_witness :
    handleIncomingInstagram Store.empty 7
      { sender := some { id := "ig9" }, timestamp := 3, message := none } =
      (Store.empty, []) :=
  (c9_instagram_missing_message_dropped Store.empty 7
    { sender := some { id := "ig9" }, timestamp := 3, message := none }
    { id := "ig9" } rfl rfl).2.1

/-- C8: classification of a raw webhook body is a pure, total function of
the top-level `object` discriminator (two bodies with the same
discriminator classify identically — in particular the same body twice),
and the webhook handler's `typeMessage` update agrees with it: a
recognized tag overwrites the flag, an unrecognized body leaves it as it
was, and no input makes classification throw. -/
theorem c8_identify_pure_total :
    (∀ b1 b2 : WebhookBody, b1.object = b2.object → identify b1 = identify b2) ∧
    (∀ tm st now b, (webhookPost tm st now b).1 =
      if identify b = "unrecognized" then tm else identify b) := by
  constructor
  · intro b1 b2 h
    simp [identify, h]
  · intro tm st now b
    by_cases h1 : b.object = some "instagram"
    · cases hbe : b.entry <;> simp [webhookPost, identify, h1, hbe]
    · by_cases h2 : b.object = some "whatsapp_business_account"
      · cases hbe : b.entry <;> simp [webhookPost, identify, h1, h2, hbe]
      · simp [webhookPost, identify, h1, h2]

/-- Witness for C8: two raw Instagram bodies with the same discriminator
(and different `entry` payloads) classify identically. -/
theorem c8_identify_pure_total_witness :
    identify { object := some "instagram", entry := none } =
      identify { object := some "instagram", entry := some [] } :=
  c8_identify_pure_total.1 { object := some "instagram", entry := none }
    { object := some "instagram", entry := some [] } rfl

/-! ## String helper lemmas -/

/-- Two concatenations with distinct equal-length heads are distinct. -/
theorem append_ne_of_head_ne (p q a b : String)
    (hlen : p.length = q.length) (hne : p ≠ q) : p ++ a ≠ q ++ b := by
  intro h
  apply hne
  have hd : p.data ++ a.data = q.data ++ b.data := by
    have h2 := congrArg String.data h
    simpa [String.data_append] using h2
  exact String.ext (List.append_inj_left hd hlen)

/-- Appending to a common head is injective. -/
theorem append_right_ne (p a b : String) (h : a ≠ b) : p ++ a ≠ p ++ b := by
  intro he
  apply h
  have hd : p.data ++ a.data = p.data ++ b.data := by
    have h2 := congrArg String.data he
    simpa [String.data_append] using h2
  exact String.ext (List.append_cancel_left hd)

/-- The Instagram and WhatsApp send endpoints differ for every
configuration: their API-version path segments differ (v23.0 vs v22.0). -/
theorem URLInsta_ne_urlWhatsapp (cfg : EnvConfig) : URLInsta cfg ≠ urlWhatsapp cfg := by
  have h1 : URLInsta cfg =
      "https://graph.facebook.com/v23.0/" ++ (cfg.igBusinessId ++ "/messages") := rfl
  have h2 : urlWhatsapp cfg =
      "https://graph.facebook.com/v22.0/" ++ (cfg.phoneNumberId ++ "/messages") := rfl
  rw [h1, h2]
  exact append_ne_of_head_ne _ _ _ _ (by decide) (by decide)

/-- C1: after a webhook request whose body classifies as Instagram — so the
most recently classified inbound event is an Instagram one — the next
outbound send request is routed through the Instagram adapter: endpoint
URL, authorization token and `messaging_product` are all the Instagram
ones and (given distinct configured tokens) none of WhatsApp's. -/
theorem c1_instagram_context_routes_send (cfg : EnvConfig) (tm : String) (st : Store)
    (now : Nat) (b : WebhookBody) (contactId text : String)
    (hobj : b.object = some "instagram")
    (htok : cfg.instagramAccessToken ≠ cfg.whatsappAccessToken) :
    (sendWhatsAppMessage cfg (webhookPost tm st now b).1 contactId text).url = URLInsta cfg ∧
    (sendWhatsAppMessage cfg (webhookPost tm st now b).1 contactId text).authToken =
      accessTokenConfigInstagram cfg ∧
    (sendWhatsAppMessage cfg (webhookPost tm st now b).1 contactId text).messaging_product =
      "instagram" ∧
    (sendWhatsAppMessage cfg (webhookPost tm st now b).1 contactId text).url ≠ urlWhatsapp cfg ∧
    (sendWhatsAppMessage cfg (webhookPost tm st now b).1 contactId text).authToken ≠
      accessTokenConfigWhatsapp cfg ∧
    (sendWhatsAppMessage cfg (webhookPost tm st now b).1 contactId text).messaging_product ≠
      "whatsapp" := by
  have htm : (webhookPost tm st now b).1 = "instagram" := by
    cases hbe : b.entry <;> simp [webhookPost, hobj, hbe]
  rw [htm]
  refine ⟨rfl, rfl, rfl, ?_, ?_, by simp [sendWhatsAppMessage]⟩
  · simpa [sendWhatsAppMessage] using URLInsta_ne_urlWhatsapp cfg
  · simpa [sendWhatsAppMessage, accessTokenConfigInstagram, accessTokenConfigWhatsapp] using
      append_right_ne "Bearer " cfg.instagramAccessToken cfg.whatsappAccessToken htok

/-- Witness for C1: with a concrete configuration, after an Instagram
webhook event the outbound payload's `messaging_product` is 'instagram'. -/
theorem c1_instagram_context_routes_send_witness :
    (sendWhatsAppMessage cfgDemo
      (webhookPost "whatsapp" Store.empty 0
        { object := some "instagram", entry := some [] }).1 "c9" "hello").messaging_product =
      "instagram" :=
  (c1_instagram_context_routes_send cfgDemo "whatsapp" Store.empty 0
    { object := some "instagram", entry := some [] } "c9" "hello" rfl (by decide)).2.2.1

/-- C7: a published event is serialized once and the send list is exactly
the open subset of the live client set, in order, each receiving that same
serialized string; a client removed by its close handler before publish
receives nothing.  `broadcast` is a total function: no per-client outcome
can abort the fan-out or raise past the call (the readyState guard skips
non-open sockets and `ws.send` on an open socket reports failures
asynchronously). -/
theorem c7_broadcast_open_clients :
    (∀ cs data, broadcast cs data =
      (cs.filter (fun c => c.readyState = WSOPEN)).map
        (fun c => (c.clientId, serializeEvent data))) ∧
    (∀ cs cid data p, p ∈ broadcast (onClose cs cid) data → p.1 ≠ cid) := by
  have h1 : ∀ cs data, broadcast cs data =
      (cs.filter (fun c => c.readyState = WSOPEN)).map
        (fun c => (c.clientId, serializeEvent data)) := by
    intro cs data
    induction cs with
    | nil => rfl
    | cons c rest ih =>
      have hb : broadcast (c :: rest) data =
          if c.readyState = WSOPEN then
            (c.clientId, serializeEvent data) :: broadcast rest data
          else broadcast rest data := by
        by_cases h : c.readyState = WSOPEN <;> simp [broadcast, h]
      rw [hb, ih]
      by_cases h : c.readyState = WSOPEN <;> simp [List.filter_cons, h]
  refine ⟨h1, ?_⟩
  intro cs cid data p hp
  rw [h1] at hp
  simp [onClose, List.mem_filter] at hp
  obtain ⟨c, ⟨hmem, hopen, hne⟩, hpc⟩ := hp
  intro hcontra
  rw [← hpc] at hcontra
  exact hne hcontra

/-- Witness for C7: a client that disconnected before publish is not among
the receivers of a concrete broadcast. -/
theorem c7_broadcast_open_clients_witness :
    (("b", serializeEvent (WireEvent.errorEv "x")) : String × String).1 ≠ "a" :=
  c7_broadcast_open_clients.2 [{ clientId := "a", readyState := 1 },
    { clientId := "b", readyState := 1 }] "a" (WireEvent.errorEv "x")
    ("b", serializeEvent (WireEvent.errorEv "x")) (by decide)

/-- The per-contact history after a successful outbound send: the old
history with the reconciled message appended at the position where the
provisional record sat. -/
theorem getHistory_handleClientMessage_ok (st : Store) (cs : List WSClient)
    (clientId : String) (now : Nat) (contactId text confirmedId : String)
    (hfresh : ∀ m ∈ getHistory st contactId, m.id ≠ "temp-" ++ toString now) :
    getHistory (handleClientMessage st cs clientId now contactId text
      (SendResult.ok confirmedId)).1 contactId =
      getHistory st contactId ++
        [{ id := confirmedId, contactId := contactId, text := text,
           direction := Direction.outgoing, timestamp := now, status := Status.sent }] := by
  have hM : mapGet (if mapHas st.messages contactId then st.messages
      else mapSet st.messages contactId []) contactId = some (getHistory st contactId) := by
    rw [mapGet_ensure]; rfl
  simp only [handleClientMessage, getHistory, hM, Option.getD_some, mapGet_mapSet_self]
  rw [replaceById_append_fresh _ _ _ hfresh]

/-- C3: when the platform call succeeds and the provisional and confirmed
identifiers are fresh, the contact's history is the old history plus a
single reconciled message (same position as the provisional record, with
every earlier message untouched, so insertion order is preserved); that
message carries the platform-confirmed id and status `sent`, it is the
only stored message with that id, and the provisional identifier no
longer resolves in the history. -/
theorem c3_successful_send_reconciliation (st : Store) (cs : List WSClient)
    (clientId : String) (now : Nat) (contactId text confirmedId : String)
    (hfresh : ∀ m ∈ getHistory st contactId, m.id ≠ "temp-" ++ toString now)
    (hconf : ∀ m ∈ getHistory st contactId, m.id ≠ confirmedId)
    (hne : confirmedId ≠ "temp-" ++ toString now) :
    getHistory (handleClientMessage st cs clientId now contactId text
      (SendResult.ok confirmedId)).1 contactId =
      getHistory st contactId ++
        [{ id := confirmedId, contactId := contactId, text := text,
           direction := Direction.outgoing, timestamp := now, status := Status.sent }] ∧
    ((getHistory (handleClientMessage st cs clientId now contactId text
        (SendResult.ok confirmedId)).1 contactId).filter
      (fun m => m.id = confirmedId)).length = 1 ∧
    ∀ m ∈ getHistory (handleClientMessage st cs clientId now contactId text
      (SendResult.ok confirmedId)).1 contactId, m.id ≠ "temp-" ++ toString now := by
  have hmain := getHistory_handleClientMessage_ok st cs clientId now contactId text
    confirmedId hfresh
  refine ⟨hmain, ?_, ?_⟩
  · rw [hmain, List.filter_append]
    have hnil : (getHistory st contactId).filter (fun m => m.id = confirmedId) = [] :=
      List.filter_eq_nil_iff.mpr (fun m hm => by simp [hconf m hm])
    rw [hnil]
    simp
  · rw [hmain]
    intro m hm
    rcases List.mem_append.mp hm with h | h
    · exact hfresh m h
    · simp only [List.mem_singleton] at h
      subst h
      simpa using hne

/-- Witness for C3: a concrete successful send on the empty store stores
exactly the reconciled message. -/
theorem c3_successful_send_reconciliation_witness :
    getHistory (handleClientMessage Store.empty [] "cl" 5 "c" "hello"
      (SendResult.ok "wamid.1")).1 "c" =
      [{ id := "wamid.1", contactId := "c", text := "hello",
         direction := Direction.outgoing, timestamp := 5, status := Status.sent }] :=
  (c3_successful_send_reconciliation Store.empty [] "cl" 5 "c" "hello" "wamid.1"
    (by decide) (by decide) (by decide)).1

/-- C4: when the platform call fails, the store keeps the optimistic
message unmodified at status `sending` (the history is the old history
plus exactly that provisional record) and the only effects are the
pre-failure optimistic broadcast and a single `error` event sent to the
originating observer connection — no broadcast of any event to the other
observers after the failure. -/
theorem c4_failed_send_error_isolated (st : Store) (cs : List WSClient)
    (clientId : String) (now : Nat) (contactId text err : String)
    (hmem : (cs.find? (fun c => c.clientId = clientId)).isSome = true) :
    getHistory (handleClientMessage st cs clientId now contactId text
      (SendResult.fail err)).1 contactId =
      getHistory st contactId ++
        [{ id := "temp-" ++ toString now, contactId := contactId, text := text,
           direction := Direction.outgoing, timestamp := now, status := Status.sending }] ∧
    (handleClientMessage st cs clientId now contactId text (SendResult.fail err)).2 =
      [Effect.broadcastE (WireEvent.message
        { id := "temp-" ++ toString now, contactId := contactId, text := text,
          direction := Direction.outgoing, timestamp := now, status := Status.sending } none),
       Effect.sendTo clientId (WireEvent.errorEv "Failed to send message")] := by
  obtain ⟨c, hc⟩ := Option.isSome_iff_exists.mp hmem
  have hM : mapGet (if mapHas st.messages contactId then st.messages
      else mapSet st.messages contactId []) contactId = some (getHistory st contactId) := by
    rw [mapGet_ensure]; rfl
  constructor
  · simp only [handleClientMessage, getHistory, hM, Option.getD_some, mapGet_mapSet_self]
  · simp only [handleClientMessage, hM, Option.getD_some, hc]
    rfl

/-- Witness for C4: a concrete failed send leaves the sending-status echo
stored and sends the error only to the originating client. -/
theorem c4_failed_send_error_isolated_witness :
    (handleClientMessage Store.empty [{ clientId := "cl", readyState := 1 }] "cl" 5 "c" "hello"
      (SendResult.fail "boom")).2 =
      [Effect.broadcastE (WireEvent.message
        { id := "temp-5", contactId := "c", text := "hello",
          direction := Direction.outgoing, timestamp := 5, status := Status.sending } none),
       Effect.sendTo "cl" (WireEvent.errorEv "Failed to send message")] :=
  (c4_failed_send_error_isolated Store.empty [{ clientId := "cl", readyState := 1 }]
    "cl" 5 "c" "hello" "boom" (by decide)).2

/-- A dropped (caught) WhatsApp extraction failure leaves the store
unchanged with no effects. -/
theorem handleIncomingWhatsApp_error (st : Store) (v : WAValue) (e : String)
    (h : handleWhatsAppE st v = .error e) : handleIncomingWhatsApp st v = (st, []) := by
  simp [handleIncomingWhatsApp, h]

/-- A dropped (caught) Instagram extraction failure leaves the store
unchanged with no effects. -/
theorem handleIncomingInstagram_error (st : Store) (now : Nat) (v : IGValue) (e : String)
    (h : handleInstagramE st now v = .error e) : handleIncomingInstagram st now v = (st, []) := by
  simp [handleIncomingInstagram, h]

/-- Processing a change list all of whose message-changes fail extraction
mutates nothing and emits nothing. -/
theorem processWAChanges_allfail (st : Store) (acc : List Effect) (cs : List WAChange)
    (h : ∀ c ∈ cs, c.field = "messages" → ∃ e, handleWhatsAppE st c.value = .error e) :
    processWAChanges st acc cs = (st, acc) := by
  induction cs with
  | nil => rfl
  | cons c rest ih =>
    have ih' := ih (fun c hc hcf => h c (by simp [hc]) hcf)
    by_cases hf : c.field = "messages"
    · obtain ⟨e, he⟩ := h c (by simp) hf
      simp [processWAChanges, hf, handleIncomingWhatsApp, he, ih']
    · simp [processWAChanges, hf, ih']

/-- Processing a WhatsApp entry list all of whose embedded values fail
extraction mutates nothing, emits nothing, and completes without a throw. -/
theorem processWAEntries_allfail (st : Store) (acc : List Effect) (es : List WebhookEntry)
    (h : ∀ e ∈ es, ∃ cs, e.changes = some cs ∧
      ∀ c ∈ cs, c.field = "messages" → ∃ err, handleWhatsAppE st c.value = .error err) :
    processWAEntries st acc es = (st, acc, true) := by
  induction es with
  | nil => rfl
  | cons e rest ih =>
    obtain ⟨cs, hcs, hall⟩ := h e (by simp)
    have ih' := ih (fun e he => h e (by simp [he]))
    simp [processWAEntries, hcs, processWAChanges_allfail st acc cs hall, ih']

/-- Folding the Instagram per-event handler over events that all fail
extraction mutates nothing and emits nothing. -/
theorem igFold_allfail (now : Nat) (st : Store) (acc : List Effect) (vs : List IGValue)
    (h : ∀ v ∈ vs, ∃ err, handleInstagramE st now v = .error err) :
    vs.foldl (fun (p : Store × List Effect) v =>
      let r := handleIncomingInstagram p.1 now v
      (r.1, p.2 ++ r.2)) (st, acc) = (st, acc) := by
  induction vs generalizing acc with
  | nil => rfl
  | cons v rest ih =>
    obtain ⟨e, he⟩ := h v (by simp)
    have hstep : (let r := handleIncomingInstagram (st, acc).1 now v
        ((r.1 : Store), (st, acc).2 ++ r.2)) = ((st, acc) : Store × List Effect) := by
      simp [handleIncomingInstagram, he]
    rw [List.foldl_cons]
    rw [show (let r := handleIncomingInstagram (st, acc).1 now v
        ((r.1 : Store), (st, acc).2 ++ r.2)) = ((st, acc) : Store × List Effect) from hstep]
    exact ih acc (fun v hv => h v (by simp [hv]))

/-- Processing an Instagram entry list all of whose messaging events fail
extraction mutates nothing and emits nothing. -/
theorem processIGEntries_allfail (now : Nat) (st : Store) (acc : List Effect)
    (es : List WebhookEntry)
    (h : ∀ e ∈ es, ∀ vs, e.messaging = some vs →
      ∀ v ∈ vs, ∃ err, handleInstagramE st now v = .error err) :
    processIGEntries now st acc es = (st, acc) := by
  induction es generalizing acc with
  | nil => rfl
  | cons e rest ih =>
    have ih' := fun acc => ih acc (fun e he vs hvs v hv => h e (by simp [he]) vs hvs v hv)
    cases hm : e.messaging with
    | none => simp [processIGEntries, hm, ih' acc]
    | some vs =>
      simp only [processIGEntries, hm]
      rw [igFold_allfail now st acc vs (fun v hv => h e (by simp) vs hm v hv)]
      exact ih' acc

/-- C5: for a structurally intact webhook body (either platform) whose
embedded events all fail adapter extraction, the events are dropped with
no store mutation, no broadcast and no read-receipt request, and the
webhook caller is still acknowledged with HTTP 200; the handlers are
total, so no such failure escapes past the route handler. -/
theorem c5_malformed_inbound_dropped (tm : String) (st : Store) (now : Nat) :
    (∀ b entries, b.object = some "whatsapp_business_account" → b.entry = some entries →
      (∀ e ∈ entries, ∃ cs, e.changes = some cs ∧
        ∀ c ∈ cs, c.field = "messages" → ∃ err, handleWhatsAppE st c.value = .error err) →
      webhookPost tm st now b = ("whatsapp", st, [], 200)) ∧
    (∀ b entries, b.object = some "instagram" → b.entry = some entries →
      (∀ e ∈ entries, ∀ vs, e.messaging = some vs →
        ∀ v ∈ vs, ∃ err, handleInstagramE st now v = .error err) →
      webhookPost tm st now b = ("instagram", st, [], 200)) := by
  constructor
  · intro b entries hobj hentry hall
    simp [webhookPost, hobj, hentry, processWAEntries_allfail st [] entries hall]
  · intro b entries hobj hentry hall
    simp [webhookPost, hobj, hentry, processIGEntries_allfail now st [] entries hall]

/-- Witness for C5: a concrete WhatsApp webhook body whose value has no
`messages`/`contacts` arrays is dropped — store unchanged, no effects —
and still acknowledged with HTTP 200. -/
theorem c5_malformed_inbound_dropped_witness :
    webhookPost "whatsapp" Store.empty 0 c5waBody = ("whatsapp", Store.empty, [], 200) :=
  (c5_malformed_inbound_dropped "whatsapp" Store.empty 0).1 c5waBody [c5waEntry] rfl rfl
    (by
      intro e he
      simp only [c5waEntry, List.mem_singleton] at he
      subst he
      refine ⟨[c5waChange], rfl, ?_⟩
      intro c hc hcf
      simp only [List.mem_singleton] at hc
      subst hc
      exact ⟨"Cannot read properties of undefined (reading 0)", rfl⟩)

/-- C2 is refuted by the Instagram path (see `c2_counterexample`); this is
the amended claim: on WhatsApp, every accepted inbound message refreshes
the stored contact's `lastMessage`/`lastMessageTime` to that message's
text and timestamp (hence after N messages they equal the Nth's); on
Instagram, those fields are written only when the contact is first created
— an accepted event for an existing contact leaves the contact record,
and with it the preview fields, unchanged, so they retain the first
message's text and timestamp. -/
theorem c2_amended_preview_refresh :
    (∀ (st : Store) (v : WAValue) (st' : Store) (effs : List Effect)
       (msg : WAMessage) (rest : List WAMessage) (c : WAContact) (crest : List WAContact),
      v.messages = some (msg :: rest) → v.contacts = some (c :: crest) →
      handleWhatsAppE st v = .ok (st', effs) →
      ∃ ci, mapGet st'.contacts c.wa_id = some ci ∧
        ci.lastMessage = getMessageText msg ∧ ci.lastMessageTime = msg.timestamp * 1000) ∧
    (∀ (st : Store) (now : Nat) (v : IGValue) (s : IGSender),
      v.sender = some s → mapHas st.contacts s.id = true →
      (handleIncomingInstagram st now v).1.contacts = st.contacts) ∧
    (∀ (st : Store) (now : Nat) (v : IGValue) (s : IGSender) (m : IGMessage),
      v.sender = some s → v.message = some m → mapHas st.contacts s.id = false →
      mapGet (handleIncomingInstagram st now v).1.contacts s.id =
        some { id := s.id, name := "Instagram User " ++ s.id,
               lastMessage := jsOrString m.text "[Message Instagram non textuel]",
               lastMessageTime := v.timestamp * 1000 }) := by
  refine ⟨?_, ?_, ?_⟩
  · intro st v st' effs msg rest c crest hmsgs hcts hok
    simp only [handleWhatsAppE, hmsgs, hcts, List.head?] at hok
    by_cases hhas : mapHas st.contacts c.wa_id
    · simp only [hhas, if_true] at hok
      cases hg : mapGet st.contacts c.wa_id with
      | none => simp [mapHas, hg] at hhas
      | some ci0 =>
        simp only [hg] at hok
        rw [Except.ok.injEq, Prod.mk.injEq] at hok
        obtain ⟨hst', heffs⟩ := hok
        refine ⟨{ ci0 with lastMessage := getMessageText msg, lastMessageTime := msg.timestamp * 1000 }, ?_, rfl, rfl⟩
        rw [← hst']
        exact mapGet_mapSet_self _ _ _
    · rw [if_neg hhas] at hok
      cases hp : c.profile with
      | none => simp [hp] at hok
      | some p =>
        simp only [hp, mapGet_mapSet_self] at hok
        rw [Except.ok.injEq, Prod.mk.injEq] at hok
        obtain ⟨hst', heffs⟩ := hok
        refine ⟨{ id := c.wa_id, name := p.name, lastMessage := getMessageText msg, lastMessageTime := msg.timestamp * 1000 }, ?_, rfl, rfl⟩
        rw [← hst']
        exact mapGet_mapSet_self _ _ _
  · intro st now v s hs hhas
    cases hm : v.message with
    | none => simp [handleIncomingInstagram, handleInstagramE, hs, hm]
    | some m => simp [handleIncomingInstagram, handleInstagramE, hs, hm, hhas]
  · intro st now v s m hs hm hhas
    simp [handleIncomingInstagram, handleInstagramE, hs, hm, hhas, mapGet_mapSet_self]

/-- Witness for the amended C2: an accepted Instagram event for an already
known contact leaves the contact map — including the preview fields —
unchanged. -/
theorem c2_amended_preview_refresh_witness :
    (handleIncomingInstagram c2knownStore 0 c2v2).1.contacts = [("u1", c2contact)] :=
  c2_amended_preview_refresh.2.1 c2knownStore 0 c2v2 { id := "u1" } rfl rfl

/-- Counterexample to C2 as stated: two accepted Instagram inbound
messages to the same contact (both stored, texts "first" then "second"),
after which the stored contact's `lastMessage`/`lastMessageTime` still
hold the FIRST message's text and timestamp, not the second's. -/
theorem c2_counterexample :
    (getHistory c2finalStore "u1").length = 2 ∧
    (getHistory c2finalStore "u1").map Message.text = ["first", "second"] ∧
    (mapGet c2finalStore.contacts "u1").map Contact.lastMessage ≠ some "second" ∧
    (mapGet c2finalStore.contacts "u1").map Contact.lastMessage = some "first" ∧
    (mapGet c2finalStore.contacts "u1").map Contact.lastMessageTime = some 100000 := by
  decide
